import Mathlib

/-!
A shallow embedding of the `tracking-allocator` crate's core:
`src/allocator.rs` (the `GlobalAlloc` shim) and `src/token.rs` (group
identifiers, the guard state machine, and the registry counter).

The embedding fixes a 64-bit target: `usize` arithmetic is `Nat` arithmetic
modulo `2 ^ 64`, and `mem::size_of::<AllocationGroupId>()` (which equals
`size_of::<Option<AllocationGroupId>>()` thanks to the `NonZeroUsize` niche)
is 8 bytes.  The heap is modelled as a map from a byte address to the
8-byte word that a `write_unaligned`/`read_unaligned` of
`Option<AllocationGroupId>` starting at that address stores or loads; the
two accesses the shim performs on one block never overlap partially, so
keying words by their start address is exact.  The wrapped allocator is
abstracted by the pointer it returns (`none` for null); the global tracker
by a `Bool` (whether `get_global_tracker()` is `Some`).
-/

namespace TrackingAllocator

/-- `usize::MAX + 1` on a 64-bit target. -/
def USIZE : Nat := 2 ^ 64

/-- `mem::size_of::<AllocationGroupId>()` on a 64-bit target: 8 bytes. -/
def metadataSize : Nat := 8

/-- `AllocationGroupId(NonZeroUsize)` from `token.rs`.  The payload is kept
as a plain `Nat`; the niche encoding used by the shim maps the word `0` to
`None` and any other word `n` to `Some(AllocationGroupId(n))`. -/
structure AllocationGroupId where
  id : Nat
  deriving DecidableEq, Repr

/-- `AllocationGroupId::ROOT`, i.e. `NonZeroUsize::new_unchecked(1)`. -/
def AllocationGroupId.ROOT : AllocationGroupId := ⟨1⟩

/-- `std::alloc::Layout`: a size and an alignment. -/
structure Layout where
  size : Nat
  align : Nat
  deriving DecidableEq, Repr

/-- The thread-local `CURRENT_ALLOCATION_TOKEN` cell
(`RefCell<Option<AllocationGroupId>>`): its borrow flag (whether a
`borrow_mut` is outstanding) and its contents. -/
structure TokenCell where
  borrowed : Bool
  val : Option AllocationGroupId
  deriving DecidableEq, Repr

/-- The word that `write_unaligned` stores for an `Option<AllocationGroupId>`
(niche encoding: `None` is the zero word). -/
def encodeGroup : Option AllocationGroupId → Nat
  | none => 0
  | some g => g.id

/-- The `Option<AllocationGroupId>` that `read_unaligned` decodes from a word. -/
def decodeGroup (w : Nat) : Option AllocationGroupId :=
  if w = 0 then none else some ⟨w⟩

/-- One `tracker.allocated(addr, layout, group_id)` call. -/
structure AllocEvent where
  addr : Nat
  layout : Layout
  groupId : AllocationGroupId
  deriving DecidableEq, Repr

/-- One `tracker.deallocated(addr, layout, allocating, deallocating)` call. -/
structure DeallocEvent where
  addr : Nat
  layout : Layout
  allocatingGroupId : AllocationGroupId
  deallocatingGroupId : AllocationGroupId
  deriving DecidableEq, Repr

/-- Everything observable about one `Allocator::alloc` call: the returned
pointer (`none` for null), the thread-local cell when the call is over, the
heap, the `allocated` event (if any), whether `self.inner.alloc` ran, whether
the defensive `unreachable!()` arm of the `try_borrow_mut` match ran, and —
when the tracker callback was invoked — the state of the thread-local cell
while that callback was executing. -/
structure AllocOutcome where
  ret : Option Nat
  cellAfter : TokenCell
  mem : Nat → Nat
  event : Option AllocEvent
  innerInvoked : Bool
  unreachableHit : Bool
  callbackCell : Option TokenCell

/-- Everything observable about one `Allocator::dealloc` call: the
thread-local cell when the call is over, the pointer/layout handed to
`self.inner.dealloc` (if it ran), the address the trailing-metadata read
loads from, the `deallocated` event (if any), whether the defensive
else-arm (the one returning without doing anything) ran, and the state of
the thread-local cell while the tracker callback was executing. -/
structure DeallocOutcome where
  cellAfter : TokenCell
  innerFreed : Option (Nat × Layout)
  readAddr : Option Nat
  event : Option DeallocEvent
  skipped : Bool
  callbackCell : Option TokenCell

/-- `Allocator::alloc` from `src/allocator.rs` (lines 38-94).

* If the cell is already mutably borrowed, `try_borrow_mut` fails and the
  `unreachable!()` arm runs (a panic; nothing else happens).
* Otherwise `token.take()` empties the cell for the duration of the call.
* `layout.size().checked_add(metadata_size)` overflowing (`size + 8` not
  representable in `usize`) restores the cell and returns null without
  touching the wrapped allocator.
* Otherwise the wrapped allocator is called; on a non-null pointer `p` the
  taken identifier is written (niche-encoded) at `p + layout.size()`.
* The tracker block runs regardless of whether the pointer is null: with a
  tracker set and a taken identifier present, `allocated(ptr as usize,
  layout, group_id)` fires (address 0 for a null pointer).
* The cell is restored and the pointer returned. -/
def alloc (tracker : Bool) (cell : TokenCell) (mem : Nat → Nat) (layout : Layout)
    (innerPtr : Option Nat) : AllocOutcome :=
  if cell.borrowed then
    { ret := none, cellAfter := cell, mem := mem, event := none,
      innerInvoked := false, unreachableHit := true, callbackCell := none }
  else
    let maybeGroupId := cell.val
    if layout.size + metadataSize < USIZE then
      match innerPtr with
      | some p =>
          let mem1 := fun a => if a = p + layout.size then encodeGroup maybeGroupId else mem a
          let event := if tracker then
              match maybeGroupId with
              | some g => some { addr := p, layout := layout, groupId := g }
              | none => none
            else none
          { ret := some p,
            cellAfter := { borrowed := cell.borrowed, val := maybeGroupId },
            mem := mem1, event := event, innerInvoked := true, unreachableHit := false,
            callbackCell := if event.isSome then some { borrowed := true, val := none } else none }
      | none =>
          let event := if tracker then
              match maybeGroupId with
              | some g => some { addr := 0, layout := layout, groupId := g }
              | none => none
            else none
          { ret := none,
            cellAfter := { borrowed := cell.borrowed, val := maybeGroupId },
            mem := mem, event := event, innerInvoked := true, unreachableHit := false,
            callbackCell := if event.isSome then some { borrowed := true, val := none } else none }
    else
      { ret := none,
        cellAfter := { borrowed := cell.borrowed, val := maybeGroupId },
        mem := mem, event := none, innerInvoked := false, unreachableHit := false,
        callbackCell := none }

/-- `Allocator::dealloc` from `src/allocator.rs` (lines 97-148).

* If the cell is already mutably borrowed, the else-arm returns without
  freeing, reading, or reporting anything.
* Otherwise `token.take()` empties the cell, `self.inner.dealloc(ptr,
  layout)` frees with exactly the layout that was passed in, the
  "underlying" size is computed as the wrapping subtraction
  `layout.size() - mem::size_of::<AllocationGroupId>()`, and the word at
  `ptr + underlying_size` is decoded as the allocating group.
* With a tracker set and both identifiers present, `deallocated(ptr as
  usize, underlying_layout, allocating, deallocating)` fires.
* The cell is restored. -/
def dealloc (tracker : Bool) (cell : TokenCell) (mem : Nat → Nat) (ptr : Nat)
    (layout : Layout) : DeallocOutcome :=
  if cell.borrowed then
    { cellAfter := cell, innerFreed := none, readAddr := none, event := none,
      skipped := true, callbackCell := none }
  else
    let maybeDeallocatingGroupId := cell.val
    let underlyingSize := (layout.size + USIZE - metadataSize) % USIZE
    let rAddr := ptr + underlyingSize
    let maybeAllocatingGroupId := decodeGroup (mem rAddr)
    let event := if tracker then
        match maybeAllocatingGroupId, maybeDeallocatingGroupId with
        | some ag, some dg =>
            some { addr := ptr, layout := { size := underlyingSize, align := layout.align },
                   allocatingGroupId := ag, deallocatingGroupId := dg }
        | _, _ => none
      else none
    { cellAfter := { borrowed := cell.borrowed, val := maybeDeallocatingGroupId },
      innerFreed := some (ptr, layout), readAddr := some rAddr, event := event,
      skipped := false,
      callbackCell := if event.isSome then some { borrowed := true, val := none } else none }

/-- `GuardState` from `src/token.rs` (lines 132-140). -/
inductive GuardState where
  | Idle (id : AllocationGroupId)
  | Active (previous : Option AllocationGroupId)
  deriving DecidableEq, Repr

/-- The fatal paths of the guard state machine, carrying exactly the data
the corresponding `panic!`/`expect` message interpolates:
`transition_to_active` on an `Active` guard formats the thread id, the
current cell contents and the stored previous identifier;
`transition_to_idle` on an `Idle` guard formats the thread id only; the
`expect` inside `try_transition_to_idle` (empty cell while `Active`)
formats nothing. -/
inductive FatalError where
  | activeToActive (tid : Nat) (current : Option AllocationGroupId)
      (previous : Option AllocationGroupId)
  | idleToIdle (tid : Nat)
  | emptyCell
  deriving DecidableEq, Repr

/-- Whether the diagnostic of a fatal transition includes both the current
and the previous identifier. -/
def diagnosticHasBothIds : FatalError → Bool
  | .activeToActive _ _ _ => true
  | _ => false

/-- Whether the diagnostic of a fatal transition includes the thread id. -/
def diagnosticHasTid : FatalError → Bool
  | .activeToActive _ _ _ => true
  | .idleToIdle _ => true
  | .emptyCell => false

/-- `GuardState::transition_to_active` (token.rs lines 143-162), acting on a
guard state and the thread-local cell contents.  On `Idle(id)` the cell is
replaced by `Some(id)` and the displaced value becomes the stored previous;
on `Active` it panics with thread id, current and previous. -/
def transitionToActive (tid : Nat) (st : GuardState)
    (cell : Option AllocationGroupId) :
    Except FatalError (GuardState × Option AllocationGroupId) :=
  match st with
  | .Idle id => .ok (.Active cell, some id)
  | .Active previous => .error (.activeToActive tid cell previous)

/-- `GuardState::try_transition_to_idle` (token.rs lines 174-188): `none`
result for an `Idle` guard (caller decides what that means); on `Active` the
cell is replaced by the stored previous, the displaced value must be present
(`expect`, else fatal) and becomes both the returned identifier and the new
`Idle` payload. -/
def tryTransitionToIdle (st : GuardState) (cell : Option AllocationGroupId) :
    Except FatalError (Option (AllocationGroupId × GuardState × Option AllocationGroupId)) :=
  match st with
  | .Idle _ => .ok none
  | .Active previous =>
      match cell with
      | none => .error .emptyCell
      | some current => .ok (some (current, .Idle current, previous))

/-- `GuardState::transition_to_idle` (token.rs lines 164-172): like
`try_transition_to_idle` but an `Idle` guard is the fatal idle-to-idle
misuse, whose diagnostic carries the thread id only. -/
def transitionToIdle (tid : Nat) (st : GuardState)
    (cell : Option AllocationGroupId) :
    Except FatalError (AllocationGroupId × GuardState × Option AllocationGroupId) :=
  match tryTransitionToIdle st cell with
  | .error e => .error e
  | .ok none => .error (.idleToIdle tid)
  | .ok (some r) => .ok r

/-- The thread-local cell after an `enter` attempt: a panic unwinds without
touching the cell, so on the fatal path the cell keeps its old contents. -/
def cellAfterEnter (tid : Nat) (st : GuardState)
    (cell : Option AllocationGroupId) : Option AllocationGroupId :=
  match transitionToActive tid st cell with
  | .ok (_, c) => c
  | .error _ => cell

/-- The thread-local cell after an `exit` attempt; on the fatal path the
cell keeps its old contents. -/
def cellAfterExit (tid : Nat) (st : GuardState)
    (cell : Option AllocationGroupId) : Option AllocationGroupId :=
  match transitionToIdle tid st cell with
  | .ok (_, _, c) => c
  | .error _ => cell

/-- A single-threaded program state for the token machinery: the
thread-local cell plus the stack of currently entered guards (most recent
first), each recorded with the group id its token carried at `enter` time. -/
structure SysState where
  cell : Option AllocationGroupId
  stack : List (AllocationGroupId × GuardState)
  deriving DecidableEq, Repr

/-- A well-nested (LIFO) operation on the token machinery: enter a fresh
token, or exit the most recently entered guard. -/
inductive TokenOp where
  | enter (g : AllocationGroupId)
  | exit
  deriving DecidableEq, Repr

/-- One step of the single-threaded machine.  `enter g` builds
`GuardState::Idle(g)` (as `AllocationGuard::enter` does) and runs
`transition_to_active`; `exit` runs `transition_to_idle` on the most
recently entered guard.  `none` models a panic or an exit with no active
guard. -/
def sysStep (s : SysState) (op : TokenOp) : Option SysState :=
  match op with
  | .enter g =>
      match transitionToActive 0 (.Idle g) s.cell with
      | .ok (st, cellNew) => some ⟨cellNew, (g, st) :: s.stack⟩
      | .error _ => none
  | .exit =>
      match s.stack with
      | [] => none
      | (_, st) :: rest =>
          match transitionToIdle 0 st s.cell with
          | .ok (_, _, cellNew) => some ⟨cellNew, rest⟩
          | .error _ => none

/-- Run a list of operations from a state, failing if any step does. -/
def sysRun : SysState → List TokenOp → Option SysState
  | s, [] => some s
  | s, op :: ops =>
      match sysStep s op with
      | some s1 => sysRun s1 ops
      | none => none

/-- The initial per-thread state: the cell holds the root identifier
(`CURRENT_ALLOCATION_TOKEN` initializer, token.rs lines 10-17) and no guard
is active. -/
def sysInit : SysState := ⟨some AllocationGroupId.ROOT, []⟩

/-- The identifier of the most recently entered, not yet exited group; the
root identifier when no group is active. -/
def topId : List (AllocationGroupId × GuardState) → AllocationGroupId
  | [] => AllocationGroupId.ROOT
  | (g, _) :: _ => g

/-- The saved-previous chain of the guard stack: each active guard stored,
as its previous, the identifier that was current when it was entered — the
one below it on the stack (the root at the bottom). -/
def chainedB : List (AllocationGroupId × GuardState) → Bool
  | [] => true
  | (_, st) :: rest =>
      decide (st = GuardState.Active (some (topId rest))) && chainedB rest

/-- The registry's two atomics (token.rs lines 32-46): `GROUP_ID` and
`HIGHEST_GROUP_ID`, both starting at `ROOT + 1 = 2`. -/
structure RegistryState where
  groupId : Nat
  highest : Nat
  deriving DecidableEq, Repr

/-- The registry atomics at process start. -/
def registryInit : RegistryState := ⟨2, 2⟩

/-- `AllocationGroupId::next` (token.rs lines 32-46), single-threaded: the
reserved id is the old `GROUP_ID` (`fetch_add(1)` wraps modulo `2 ^ 64`);
`fetch_max` returns the old `HIGHEST_GROUP_ID` and stores the max; the call
succeeds exactly when the reserved id is at least the old watermark.
(`register()` is `AllocationGroupId::next().map(AllocationGroupToken)`, so
its success is this function's success.) -/
def nextGroupId (s : RegistryState) : Option AllocationGroupId × RegistryState :=
  let gid := s.groupId
  let prevHighest := s.highest
  let s1 : RegistryState := ⟨(s.groupId + 1) % USIZE, max s.highest gid⟩
  if gid ≥ prevHighest then (some ⟨gid⟩, s1) else (none, s1)

/-- The registry atomics after `n` single-threaded `register()` calls. -/
def registryRun : Nat → RegistryState
  | 0 => registryInit
  | n + 1 => (nextGroupId (registryRun n)).2

/-- What the `(n + 1)`-st single-threaded `register()` call returns. -/
def callResult (n : Nat) : Option AllocationGroupId :=
  (nextGroupId (registryRun n)).1

/-! Helper lemmas shared by the claim theorems. -/

/-- `alloc` restores the thread-local cell on every path (`*token =
maybe_group_id` before returning; the overflow path restores explicitly; the
defensive branch never touched it). -/
lemma alloc_cellAfter (t : Bool) (c : TokenCell) (m : Nat → Nat) (l : Layout)
    (i : Option Nat) : (alloc t c m l i).cellAfter = c := by
  rcases c with ⟨b, v⟩
  rcases b <;> rcases i <;> simp [alloc] <;> split <;> rfl

/-- `dealloc` restores the thread-local cell on every path. -/
lemma dealloc_cellAfter (t : Bool) (c : TokenCell) (m : Nat → Nat) (p : Nat)
    (l : Layout) : (dealloc t c m p l).cellAfter = c := by
  rcases c with ⟨b, v⟩
  rcases b <;> simp [dealloc]

/-- While `alloc` runs a tracker callback, the thread-local cell is mutably
borrowed and its contents have been taken. -/
lemma alloc_callbackCell_shape (t : Bool) (c : TokenCell) (m : Nat → Nat) (l : Layout)
    (i : Option Nat) :
    (alloc t c m l i).callbackCell = none
      ∨ (alloc t c m l i).callbackCell = some ⟨true, none⟩ := by
  rcases c with ⟨b, v⟩
  rcases b <;> rcases i <;> simp [alloc] <;> repeat' split <;> simp

/-- While `dealloc` runs a tracker callback, the thread-local cell is mutably
borrowed and its contents have been taken. -/
lemma dealloc_callbackCell_shape (t : Bool) (c : TokenCell) (m : Nat → Nat) (p : Nat)
    (l : Layout) :
    (dealloc t c m p l).callbackCell = none
      ∨ (dealloc t c m p l).callbackCell = some ⟨true, none⟩ := by
  rcases c with ⟨b, v⟩
  rcases b <;> simp [dealloc] <;> repeat' split <;> simp

/-- The LIFO invariant of the single-threaded token machine: the cell holds
the top of the stack of active groups, and each active guard saved, as its
previous, the identifier below it. -/
def sysInvP (s : SysState) : Prop :=
  s.cell = some (topId s.stack) ∧ chainedB s.stack = true

/-- `sysStep` preserves the LIFO invariant. -/
lemma sysStep_inv (s t : SysState) (op : TokenOp) (hs : sysInvP s)
    (h : sysStep s op = some t) : sysInvP t := by
  obtain ⟨scell, sstack⟩ := s
  obtain ⟨hc, hch⟩ := hs
  simp only at hc hch
  cases op with
  | enter g =>
      simp only [sysStep, transitionToActive] at h
      cases h
      exact ⟨rfl, by simp [chainedB, topId, hc, hch]⟩
  | exit =>
      cases sstack with
      | nil => simp [sysStep] at h
      | cons hd rest =>
          obtain ⟨g, st⟩ := hd
          simp only [chainedB, Bool.and_eq_true, decide_eq_true_eq] at hch
          simp only [topId] at hc
          simp only [sysStep, hch.1, transitionToIdle, tryTransitionToIdle, hc] at h
          cases h
          exact ⟨rfl, hch.2⟩

/-- `sysRun` preserves the LIFO invariant. -/
lemma sysRun_inv (ops : List TokenOp) : ∀ s t : SysState,
    sysInvP s → sysRun s ops = some t → sysInvP t := by
  induction ops with
  | nil =>
      intro s t hs h
      simp only [sysRun, Option.some.injEq] at h
      exact h ▸ hs
  | cons op ops ih =>
      intro s t hs h
      unfold sysRun at h
      cases hstep : sysStep s op with
      | none => rw [hstep] at h; exact absurd h (by simp)
      | some s1 =>
          rw [hstep] at h
          exact ih s1 t (sysStep_inv s s1 op hs hstep) h

/-- `USIZE` as a numeral, for `omega`. -/
lemma USIZE_eq : USIZE = 18446744073709551616 := by norm_num [USIZE]

/-- The registry state advances the same way whether the call succeeds or
fails: the counter wraps forward, the watermark takes the max. -/
lemma nextGroupId_snd (s : RegistryState) :
    (nextGroupId s).2 = ⟨(s.groupId + 1) % USIZE, max s.highest s.groupId⟩ := by
  simp only [nextGroupId]
  split <;> rfl

/-- A call succeeds exactly when the reserved id is at least the previous
watermark. -/
lemma nextGroupId_fst (s : RegistryState) :
    (nextGroupId s).1 = if s.groupId ≥ s.highest then some ⟨s.groupId⟩ else none := by
  simp only [nextGroupId]
  split <;> rfl

/-- One-call unfolding of `registryRun`. -/
lemma registryRun_succ (n : Nat) :
    registryRun (n + 1)
      = ⟨((registryRun n).groupId + 1) % USIZE,
          max (registryRun n).highest (registryRun n).groupId⟩ := by
  rw [registryRun, nextGroupId_snd]

/-- Before the counter wraps, `m` calls leave `GROUP_ID = m + 2` and
`HIGHEST_GROUP_ID = m + 1`. -/
lemma registryRun_phase1 : ∀ m : Nat, 1 ≤ m → m ≤ USIZE - 3 →
    registryRun m = ⟨m + 2, m + 1⟩ := by
  intro m
  induction m with
  | zero => omega
  | succ n ih =>
      intro _ hub
      cases n with
      | zero =>
          have h0 : registryRun 1 = ⟨3, 2⟩ := by decide
          simpa using h0
      | succ k =>
          have hU := USIZE_eq
          have hrec : registryRun (k + 1) = ⟨k + 3, k + 2⟩ := by
            have h1 : registryRun (k + 1) = ⟨(k + 1) + 2, (k + 1) + 1⟩ :=
              ih (by omega) (by omega)
            simpa using h1
          rw [registryRun_succ, hrec]
          have hmod : (k + 3 + 1) % USIZE = k + 4 := Nat.mod_eq_of_lt (by omega)
          have hmax : max (k + 2) (k + 3) = k + 3 := by omega
          simp only [hmod, hmax]

/-- The `fetch_add` wraps: after `USIZE - 2` calls the counter is back at 0
while the watermark is pinned at `USIZE - 1`. -/
lemma registryRun_wrap : registryRun (USIZE - 2) = ⟨0, USIZE - 1⟩ := by
  have hU := USIZE_eq
  have hstep : USIZE - 2 = (USIZE - 3) + 1 := by omega
  have hrec : registryRun (USIZE - 3) = ⟨USIZE - 1, USIZE - 2⟩ := by
    have h1 := registryRun_phase1 (USIZE - 3) (by omega) le_rfl
    have h2 : USIZE - 3 + 2 = USIZE - 1 := by omega
    have h3 : USIZE - 3 + 1 = USIZE - 2 := by omega
    rw [h2, h3] at h1
    exact h1
  rw [hstep, registryRun_succ, hrec]
  have hmod : ((⟨USIZE - 1, USIZE - 2⟩ : RegistryState).groupId + 1) % USIZE = 0 := by
    have hful : (⟨USIZE - 1, USIZE - 2⟩ : RegistryState).groupId + 1 = USIZE := by
      simp only []
      omega
    rw [hful, Nat.mod_self]
  have hmax : max (⟨USIZE - 1, USIZE - 2⟩ : RegistryState).highest
      (⟨USIZE - 1, USIZE - 2⟩ : RegistryState).groupId = USIZE - 1 := by
    simp only []
    omega
  rw [hmod, hmax]

/-- After the wrap, the counter climbs back up while the watermark stays at
`USIZE - 1` (every such call fails until the counter reaches it again). -/
lemma registryRun_phase2 : ∀ k : Nat, k ≤ USIZE - 1 →
    registryRun (USIZE - 2 + k) = ⟨k, USIZE - 1⟩ := by
  intro k
  induction k with
  | zero => intro _; simpa using registryRun_wrap
  | succ j ih =>
      intro hub
      have hU := USIZE_eq
      have hrec := ih (by omega)
      have hstep : USIZE - 2 + (j + 1) = (USIZE - 2 + j) + 1 := by omega
      rw [hstep, registryRun_succ, hrec]
      have hmod : ((⟨j, USIZE - 1⟩ : RegistryState).groupId + 1) % USIZE = j + 1 := by
        simp only []
        exact Nat.mod_eq_of_lt (by omega)
      have hmax : max (⟨j, USIZE - 1⟩ : RegistryState).highest
          (⟨j, USIZE - 1⟩ : RegistryState).groupId = USIZE - 1 := by
        simp only []
        omega
      rw [hmod, hmax]

/-! The claims. -/

/-- C1: at a concrete round trip the claim fails on the code.  `alloc` of a
16-byte block at pointer 4096 under group 2 writes the group at the
caller-requested-size offset (word 4112 holds 2), but `dealloc` — invoked,
per the `GlobalAlloc` contract, with the same layout the caller allocated
with — reads the word at `ptr + (layout.size() - 8) = 4104`, i.e. the last
8 user bytes (here 7), and reports allocating group 7 rather than the group
2 that `alloc` recorded. -/
theorem dealloc_misreads_allocating_group :
    (alloc true ⟨false, some ⟨2⟩⟩ (fun _ => 7) ⟨16, 8⟩ (some 4096)).mem (4096 + 16) = 2
    ∧ (dealloc true ⟨false, some ⟨3⟩⟩
        (alloc true ⟨false, some ⟨2⟩⟩ (fun _ => 7) ⟨16, 8⟩ (some 4096)).mem 4096 ⟨16, 8⟩).readAddr
        = some 4104
    ∧ (dealloc true ⟨false, some ⟨3⟩⟩
        (alloc true ⟨false, some ⟨2⟩⟩ (fun _ => 7) ⟨16, 8⟩ (some 4096)).mem 4096 ⟨16, 8⟩).event
        = some ⟨4096, ⟨8, 8⟩, ⟨7⟩, ⟨3⟩⟩
    ∧ (⟨7⟩ : AllocationGroupId) ≠ ⟨2⟩ := by
  decide

/-- C2 (amended): while a tracker callback invoked by the shim runs, the
thread-local cell holds no identifier but is still mutably borrowed; a
nested `alloc` therefore reaches the defensive `unreachable!()` branch
(rather than proceeding untracked), and a nested `dealloc` is skipped
entirely — neither produces a tracker event nor recurses into tracking;
after the callback returns the saved identifier is restored
unconditionally. -/
theorem callback_suspension (t td : Bool) (c cb : TokenCell) (m md : Nat → Nat)
    (l ld : Layout) (i : Option Nat) (p q : Nat)
    (h : (alloc t c m l i).callbackCell = some cb ∨
      (dealloc td c md q ld).callbackCell = some cb) :
    cb = ⟨true, none⟩
    ∧ (alloc t cb m l i).unreachableHit = true
    ∧ (alloc t cb m l i).event = none
    ∧ (alloc t cb m l i).innerInvoked = false
    ∧ (dealloc t cb m p l).skipped = true
    ∧ (dealloc t cb m p l).event = none
    ∧ (dealloc t cb m p l).innerFreed = none
    ∧ (alloc t c m l i).cellAfter = c
    ∧ (dealloc td c md q ld).cellAfter = c := by
  have hcb : cb = (⟨true, none⟩ : TokenCell) := by
    rcases h with h | h
    · rcases alloc_callbackCell_shape t c m l i with h2 | h2 <;> rw [h] at h2
      · exact absurd h2 (by simp)
      · exact Option.some_injective _ h2.symm |>.symm ▸ rfl
    · rcases dealloc_callbackCell_shape td c md q ld with h2 | h2 <;> rw [h] at h2
      · exact absurd h2 (by simp)
      · exact Option.some_injective _ h2.symm |>.symm ▸ rfl
  subst hcb
  refine ⟨rfl, ?_, ?_, ?_, ?_, ?_, ?_, alloc_cellAfter t c m l i, dealloc_cellAfter td c md q ld⟩
    <;> simp [alloc, dealloc]

/-- C2 witness: the suspension theorem instantiated at a concrete tracked
allocation whose callback performs a nested allocation. -/
theorem callback_suspension_witness :
    ((alloc true ⟨false, some ⟨2⟩⟩ (fun _ => 0) ⟨32, 8⟩ (some 2048)).callbackCell
        = some ⟨true, none⟩ ∨
      (dealloc true ⟨false, some ⟨2⟩⟩ (fun _ => 0) 2048 ⟨32, 8⟩).callbackCell
        = some ⟨true, none⟩)
    ∧ ((⟨true, none⟩ : TokenCell) = ⟨true, none⟩
      ∧ (alloc true ⟨true, none⟩ (fun _ => 0) ⟨32, 8⟩ (some 2048)).unreachableHit = true
      ∧ (alloc true ⟨true, none⟩ (fun _ => 0) ⟨32, 8⟩ (some 2048)).event = none
      ∧ (alloc true ⟨true, none⟩ (fun _ => 0) ⟨32, 8⟩ (some 2048)).innerInvoked = false
      ∧ (dealloc true ⟨true, none⟩ (fun _ => 0) 77 ⟨32, 8⟩).skipped = true
      ∧ (dealloc true ⟨true, none⟩ (fun _ => 0) 77 ⟨32, 8⟩).event = none
      ∧ (dealloc true ⟨true, none⟩ (fun _ => 0) 77 ⟨32, 8⟩).innerFreed = none
      ∧ (alloc true ⟨false, some ⟨2⟩⟩ (fun _ => 0) ⟨32, 8⟩ (some 2048)).cellAfter
          = ⟨false, some ⟨2⟩⟩
      ∧ (dealloc true ⟨false, some ⟨2⟩⟩ (fun _ => 0) 2048 ⟨32, 8⟩).cellAfter
          = ⟨false, some ⟨2⟩⟩) :=
  ⟨Or.inl (by decide),
    callback_suspension true true ⟨false, some ⟨2⟩⟩ ⟨true, none⟩ (fun _ => 0) (fun _ => 0)
      ⟨32, 8⟩ ⟨32, 8⟩ (some 2048) 77 2048 (Or.inl (by decide))⟩

/-- C2 counterexample: a nested allocation performed while the tracker
callback runs does reach the defensive `unreachable!()` branch, contrary to
the claim's parenthetical. -/
theorem nested_alloc_hits_unreachable :
    (alloc true ⟨false, some ⟨2⟩⟩ (fun _ => 0) ⟨16, 8⟩ (some 4096)).callbackCell
        = some ⟨true, none⟩
    ∧ (alloc true ⟨true, none⟩ (fun _ => 0) ⟨16, 8⟩ (some 8192)).unreachableHit = true := by
  decide

/-- C3: evaluated at the claim's actual no-group scenario.  On this code the
thread-local cell holds an identifier whenever it is not borrowed — it
initializes to `Some(ROOT)` (token.rs lines 10-17) and every matched exit
restores a `Some` — so "no group active" is the cell holding the root
identifier.  There, with a tracker set, `alloc` of a 16-byte block at 4096
delivers `allocated(4096, layout, ROOT)` (the `if let Some(group_id)` at
allocator.rs lines 79-82 matches `Some(ROOT)`) and stamps the root word 1
into the trailing slot, and the later free under group 3 delivers a
`deallocated` event as well — from the buggy offset it reads the user word
7 (see C1), and even the slot `alloc` actually wrote decodes to
`Some(ROOT)`, a present identifier, so the claimed suppression would not
occur at the correct offset either. -/
theorem root_state_alloc_dealloc_events_fire :
    (alloc true ⟨false, some AllocationGroupId.ROOT⟩ (fun _ => 7) ⟨16, 8⟩ (some 4096)).event
        = some ⟨4096, ⟨16, 8⟩, AllocationGroupId.ROOT⟩
    ∧ (alloc true ⟨false, some AllocationGroupId.ROOT⟩ (fun _ => 7) ⟨16, 8⟩ (some 4096)).mem
        (4096 + 16) = 1
    ∧ (dealloc true ⟨false, some ⟨3⟩⟩
        (alloc true ⟨false, some AllocationGroupId.ROOT⟩ (fun _ => 7) ⟨16, 8⟩ (some 4096)).mem
        4096 ⟨16, 8⟩).event
        = some ⟨4096, ⟨8, 8⟩, ⟨7⟩, ⟨3⟩⟩
    ∧ decodeGroup 1 = some AllocationGroupId.ROOT := by
  decide

/-- C4: `dealloc(ptr, layout)` hands the wrapped allocator exactly the
layout it was given (size 16), not the augmented size 16 + 8 the claim
requires, and its metadata read at `ptr + 16 - 8 = 4104` is not the slot
`alloc` wrote (4112, which holds the group; 4104 holds user bytes). -/
theorem dealloc_frees_unaugmented :
    (dealloc true ⟨false, some ⟨3⟩⟩ (fun _ => 0) 4096 ⟨16, 8⟩).innerFreed
        = some (4096, ⟨16, 8⟩)
    ∧ (16 : Nat) ≠ 16 + metadataSize
    ∧ (dealloc true ⟨false, some ⟨3⟩⟩ (fun _ => 0) 4096 ⟨16, 8⟩).readAddr = some 4104
    ∧ (alloc true ⟨false, some ⟨2⟩⟩ (fun _ => 0) ⟨16, 8⟩ (some 4096)).mem 4104 = 0
    ∧ (alloc true ⟨false, some ⟨2⟩⟩ (fun _ => 0) ⟨16, 8⟩ (some 4096)).mem 4112 = 2 := by
  decide

/-- C5 counterexample: `exit` on an already-Idle guard is fatal, but its
diagnostic (token.rs line 166-169) carries the thread id only — not the
current and previous identifiers the claim requires. -/
theorem idle_exit_diagnostic_cex :
    transitionToIdle 0 (GuardState.Idle ⟨2⟩) (some AllocationGroupId.ROOT)
        = Except.error (FatalError.idleToIdle 0)
    ∧ diagnosticHasBothIds (FatalError.idleToIdle 0) = false :=
  ⟨rfl, rfl⟩

/-- C5 (amended): `enter` on an Active guard always aborts with a
diagnostic carrying the thread id and both the current and previous
identifiers; `exit` on an Idle guard (or unmanaged token) always aborts
with a diagnostic carrying the thread id only; neither misuse ever
silently succeeds, and both leave the thread-local cell unmodified. -/
theorem misuse_transitions_fatal :
    (∀ tid : Nat, ∀ prev cell : Option AllocationGroupId,
      transitionToActive tid (GuardState.Active prev) cell
          = Except.error (FatalError.activeToActive tid cell prev)
      ∧ diagnosticHasTid (FatalError.activeToActive tid cell prev) = true
      ∧ diagnosticHasBothIds (FatalError.activeToActive tid cell prev) = true
      ∧ cellAfterEnter tid (GuardState.Active prev) cell = cell)
    ∧ (∀ tid : Nat, ∀ gid : AllocationGroupId, ∀ cell : Option AllocationGroupId,
      transitionToIdle tid (GuardState.Idle gid) cell
          = Except.error (FatalError.idleToIdle tid)
      ∧ diagnosticHasTid (FatalError.idleToIdle tid) = true
      ∧ diagnosticHasBothIds (FatalError.idleToIdle tid) = false
      ∧ cellAfterExit tid (GuardState.Idle gid) cell = cell) :=
  ⟨fun _ _ _ => ⟨rfl, rfl, rfl, rfl⟩, fun _ _ _ => ⟨rfl, rfl, rfl, rfl⟩⟩

/-- C6: for every single-threaded well-nested sequence of enter/exit
operations starting from the initial state, the thread-local cell holds the
identifier of the most recently entered, not yet exited group (the root
identifier when none is active), every active guard saved as its previous
the identifier that was current when it was entered, and exiting the most
recent guard restores exactly that saved identifier. -/
theorem current_group_is_lifo_top (ops : List TokenOp) (s : SysState)
    (h : sysRun sysInit ops = some s) :
    s.cell = some (topId s.stack)
    ∧ chainedB s.stack = true
    ∧ ∀ g st rest, s.stack = (g, st) :: rest →
        sysStep s TokenOp.exit = some ⟨some (topId rest), rest⟩ := by
  have hinv : sysInvP s := sysRun_inv ops sysInit s ⟨rfl, rfl⟩ h
  obtain ⟨hc, hch⟩ := hinv
  refine ⟨hc, hch, ?_⟩
  intro g st rest hstack
  rw [hstack] at hch hc
  simp only [chainedB, Bool.and_eq_true, decide_eq_true_eq] at hch
  simp only [topId] at hc
  simp [sysStep, hstack, hch.1, transitionToIdle, tryTransitionToIdle, hc]

/-- C6 witness: the LIFO theorem instantiated at the run
`enter 2; enter 3; exit`. -/
theorem current_group_is_lifo_top_witness :
    sysRun sysInit [TokenOp.enter ⟨2⟩, TokenOp.enter ⟨3⟩, TokenOp.exit]
        = some ⟨some ⟨2⟩, [(⟨2⟩, GuardState.Active (some ⟨1⟩))]⟩
    ∧ ((⟨some ⟨2⟩, [(⟨2⟩, GuardState.Active (some ⟨1⟩))]⟩ : SysState).cell
          = some (topId (⟨some ⟨2⟩, [(⟨2⟩, GuardState.Active (some ⟨1⟩))]⟩ : SysState).stack)
      ∧ chainedB (⟨some ⟨2⟩, [(⟨2⟩, GuardState.Active (some ⟨1⟩))]⟩ : SysState).stack = true
      ∧ ∀ g st rest,
          (⟨some ⟨2⟩, [(⟨2⟩, GuardState.Active (some ⟨1⟩))]⟩ : SysState).stack
              = (g, st) :: rest →
          sysStep ⟨some ⟨2⟩, [(⟨2⟩, GuardState.Active (some ⟨1⟩))]⟩ TokenOp.exit
            = some ⟨some (topId rest), rest⟩) :=
  ⟨by decide,
    current_group_is_lifo_top [TokenOp.enter ⟨2⟩, TokenOp.enter ⟨3⟩, TokenOp.exit] _ (by decide)⟩

/-- C7 counterexample: the very first `register()` call reserves id 2 while
the watermark is 2 — the reserved id is not strictly greater than the
watermark, yet the call succeeds, so "fails exactly when not strictly
greater" is false on the code. -/
theorem first_register_succeeds_at_watermark :
    (registryRun 0).groupId = 2 ∧ (registryRun 0).highest = 2
    ∧ callResult 0 = some ⟨2⟩ := by
  decide

/-- C7 (amended): `register()` fails exactly when the newly reserved
identifier is strictly less than the watermark's prior value, and the
failure is not permanent: after the counter wraps, call `2^64 - 1` fails
but call `2·2^64 - 2` succeeds again. -/
theorem register_failure_characterization :
    (∀ s : RegistryState, (nextGroupId s).1 = none ↔ s.groupId < s.highest)
    ∧ callResult (USIZE - 2) = none
    ∧ callResult (2 * USIZE - 3) = some ⟨USIZE - 1⟩ := by
  have hU := USIZE_eq
  refine ⟨?_, ?_, ?_⟩
  · intro s
    rw [nextGroupId_fst]
    split <;> simp <;> omega
  · rw [callResult, registryRun_wrap, nextGroupId_fst]
    have hlt : ¬ ((⟨0, USIZE - 1⟩ : RegistryState).groupId
        ≥ (⟨0, USIZE - 1⟩ : RegistryState).highest) := by
      simp only []
      omega
    simp [hlt]
  · have hidx : 2 * USIZE - 3 = USIZE - 2 + (USIZE - 1) := by omega
    rw [hidx, callResult, registryRun_phase2 (USIZE - 1) le_rfl, nextGroupId_fst]
    simp

/-- C8: the identifier `2^64 - 1` is returned by two distinct successful
`register()` calls — call `2^64 - 2` and, after the counter wraps and
`2^64 - 1` calls fail, call `2·2^64 - 2` — so the sequence of successful
identifiers is neither strictly increasing nor free of repeats, contrary
to the claim and to `register`'s own doc comment. -/
theorem register_repeats_after_wraparound :
    callResult (USIZE - 3) = some ⟨USIZE - 1⟩
    ∧ callResult (2 * USIZE - 3) = some ⟨USIZE - 1⟩
    ∧ USIZE - 3 < 2 * USIZE - 3 := by
  have hU := USIZE_eq
  refine ⟨?_, ?_, by omega⟩
  · have hrec : registryRun (USIZE - 3) = ⟨USIZE - 1, USIZE - 2⟩ := by
      have h1 := registryRun_phase1 (USIZE - 3) (by omega) le_rfl
      have h2 : USIZE - 3 + 2 = USIZE - 1 := by omega
      have h3 : USIZE - 3 + 1 = USIZE - 2 := by omega
      rw [h2, h3] at h1
      exact h1
    rw [callResult, hrec, nextGroupId_fst]
    have hge : (⟨USIZE - 1, USIZE - 2⟩ : RegistryState).groupId
        ≥ (⟨USIZE - 1, USIZE - 2⟩ : RegistryState).highest := by
      simp only []
      omega
    simp [hge]
  · have hidx : 2 * USIZE - 3 = USIZE - 2 + (USIZE - 1) := by omega
    rw [hidx, callResult, registryRun_phase2 (USIZE - 1) le_rfl, nextGroupId_fst]
    simp

/-- C9: when the caller-requested size plus the identifier-slot size
overflows `usize`, `alloc` returns the null failure signal, never invokes
the wrapped allocator, emits no tracker event, restores the thread-local
cell, and leaves memory untouched. -/
theorem alloc_overflow_safe (t : Bool) (c : TokenCell) (m : Nat → Nat) (l : Layout)
    (i : Option Nat) (hb : c.borrowed = false) (hov : USIZE ≤ l.size + metadataSize) :
    (alloc t c m l i).ret = none
    ∧ (alloc t c m l i).innerInvoked = false
    ∧ (alloc t c m l i).event = none
    ∧ (alloc t c m l i).cellAfter = c
    ∧ (alloc t c m l i).mem = m := by
  have hlt : ¬ (l.size + metadataSize < USIZE) := by omega
  refine ⟨?_, ?_, ?_, alloc_cellAfter t c m l i, ?_⟩ <;> simp [alloc, hb, hlt]

/-- C9 witness: the overflow theorem instantiated at a request of
`usize::MAX - 3` bytes under group 2. -/
theorem alloc_overflow_safe_witness :
    (⟨false, some ⟨2⟩⟩ : TokenCell).borrowed = false
    ∧ USIZE ≤ (⟨USIZE - 4, 8⟩ : Layout).size + metadataSize
    ∧ ((alloc true ⟨false, some ⟨2⟩⟩ (fun _ => 0) ⟨USIZE - 4, 8⟩ (some 4096)).ret = none
      ∧ (alloc true ⟨false, some ⟨2⟩⟩ (fun _ => 0) ⟨USIZE - 4, 8⟩ (some 4096)).innerInvoked = false
      ∧ (alloc true ⟨false, some ⟨2⟩⟩ (fun _ => 0) ⟨USIZE - 4, 8⟩ (some 4096)).event = none
      ∧ (alloc true ⟨false, some ⟨2⟩⟩ (fun _ => 0) ⟨USIZE - 4, 8⟩ (some 4096)).cellAfter
          = ⟨false, some ⟨2⟩⟩
      ∧ (alloc true ⟨false, some ⟨2⟩⟩ (fun _ => 0) ⟨USIZE - 4, 8⟩ (some 4096)).mem
          = (fun _ => 0)) :=
  ⟨rfl, by decide,
    alloc_overflow_safe true ⟨false, some ⟨2⟩⟩ (fun _ => 0) ⟨USIZE - 4, 8⟩ (some 4096)
      rfl (by decide)⟩

/-- C10 counterexample: with group 2 active and a tracker set, a null
return from the wrapped allocator still produces an `allocated` event
(with address 0) — the tracker block is not guarded by the null check. -/
theorem alloc_null_event_cex :
    (alloc true ⟨false, some ⟨2⟩⟩ (fun _ => 0) ⟨16, 8⟩ none).ret = none
    ∧ (alloc true ⟨false, some ⟨2⟩⟩ (fun _ => 0) ⟨16, 8⟩ none).event
        = some ⟨0, ⟨16, 8⟩, ⟨2⟩⟩ := by
  decide

/-- C10 (amended): when the wrapped allocator returns null (and the
augmented size does not overflow), `alloc` returns null and writes no
metadata, but the tracker is still invoked: with a tracker set and a group
active, an `allocated` event with address 0 is delivered; the cell is
restored either way. -/
theorem alloc_null_still_reports (t : Bool) (c : TokenCell) (m : Nat → Nat) (l : Layout)
    (hb : c.borrowed = false) (hs : l.size + metadataSize < USIZE) :
    (alloc t c m l none).ret = none
    ∧ (alloc t c m l none).mem = m
    ∧ (alloc t c m l none).innerInvoked = true
    ∧ (alloc t c m l none).event
        = (if t then c.val.map (fun g => { addr := 0, layout := l, groupId := g }) else none)
    ∧ (alloc t c m l none).cellAfter = c := by
  refine ⟨?_, ?_, ?_, ?_, alloc_cellAfter t c m l none⟩ <;>
    rcases c with ⟨b, v⟩ <;> rcases v with _ | g <;> rcases t <;> simp_all [alloc, hs]

/-- C10 witness: the null-return theorem instantiated under group 2 with a
tracker set. -/
theorem alloc_null_still_reports_witness :
    (⟨false, some ⟨2⟩⟩ : TokenCell).borrowed = false
    ∧ (⟨16, 8⟩ : Layout).size + metadataSize < USIZE
    ∧ ((alloc true ⟨false, some ⟨2⟩⟩ (fun _ => 0) ⟨16, 8⟩ none).ret = none
      ∧ (alloc true ⟨false, some ⟨2⟩⟩ (fun _ => 0) ⟨16, 8⟩ none).mem = (fun _ => 0)
      ∧ (alloc true ⟨false, some ⟨2⟩⟩ (fun _ => 0) ⟨16, 8⟩ none).innerInvoked = true
      ∧ (alloc true ⟨false, some ⟨2⟩⟩ (fun _ => 0) ⟨16, 8⟩ none).event
          = (if true then (some ⟨2⟩ : Option AllocationGroupId).map
              (fun g => { addr := 0, layout := ⟨16, 8⟩, groupId := g }) else none)
      ∧ (alloc true ⟨false, some ⟨2⟩⟩ (fun _ => 0) ⟨16, 8⟩ none).cellAfter
          = ⟨false, some ⟨2⟩⟩) :=
  ⟨rfl, by decide,
    alloc_null_still_reports true ⟨false, some ⟨2⟩⟩ (fun _ => 0) ⟨16, 8⟩ rfl (by decide)⟩

end TrackingAllocator
